import Mathlib

/-!
Shallow embedding of `src/etl/extract_transform_load.py` (PySoSiriusMongo).

The module implements one ETL cycle per channel: extract a
currently-playing snapshot, decide whether it is new (change detection
against the in-memory last-played pointer), merge it with an existing
history document when there is one, and load the result into the
channel's history collection plus the shared `last_played` pointer
collection.

Modelling conventions:
* Python dict documents become the fixed-schema `Document` structure
  (the code only ever builds documents with exactly these keys; the
  Mongo `_id` key is `Option` since a fresh document lacks it).
* Timestamps are `Option String`: the snapshot's `start` attribute comes
  from a dynamic `get_attribute` lookup and may be absent (`None`);
  the change-detection comparison in `__transform` compares it against
  `last_played_start`, which itself yields `None` when no pointer
  exists, so absence is semantically significant and must be in the
  domain.  Name-valued fields are modelled as plain strings.
* The Mongo collections become in-memory lists: the channel history
  collection is a `List Document`, the shared `last_played` collection
  an association list keyed by channel id.  The `strength 2 / locale en`
  collation of `find`/`update_one` is modelled by case-folding both
  sides (`name_matches`); `find(...)[0]` with its `IndexError → None`
  handling becomes `List.find?`.
* Store calls can fail (exceptions propagate out of `__load`); the
  booleans `hist_write_ok` / `pointer_write_ok` say whether the history
  write resp. the pointer upsert succeeds.  When a call raises, the
  remaining statements of `__load` do not run.
* `__load` mutates `new_doc` in place (`new_doc['_id'] = channel`)
  after caching it, and the in-memory cache aliases that object; the
  embedding performs the corresponding functional update on the cache.
-/

/-- Timestamps flow out of dynamic attribute lookups and may be absent. -/
abbrev Timestamp := Option String

/-- One `{id, number, name}` channel triple as stored in `channels`. -/
structure ChannelData where
  id : String
  number : String
  name : String
deriving DecidableEq

/-- One artwork entry of the snapshot's `creativeArts` list. -/
structure Artwork where
  type : String
  encrypted : Bool
  size : String
  url : String
deriving DecidableEq

/-- One `{size, url}` image kept by the artwork filter. -/
structure ArtworkImage where
  size : String
  url : String
deriving DecidableEq

/-- The playback snapshot handed to the core by the fetcher
(`SiriusCurrentlyPlaying`): success flag, identity names, start
timestamp, channel identity and raw artwork list. -/
structure SiriusCurrentlyPlaying where
  status : Bool
  album_name : String
  song_name : String
  artist_name : String
  start : Timestamp
  channel_id : String
  channel_number : String
  channel_name : String
  creativeArts : List Artwork
deriving DecidableEq

/-- A history document as built by `transform_helper` / stored in the
channel collection.  `_id` is absent on a freshly built document. -/
structure Document where
  _id : Option String
  album : String
  song : String
  artist : String
  datetime : List Timestamp
  channels : List ChannelData
  play_count : Nat
  artwork : List ArtworkImage
deriving DecidableEq

/-- The empty dict `{}` that `transform_helper` starts from when there is
no existing document; the `.get(key, default)` calls supply `[]` for
`datetime`/`channels` and `0` for `play_count`. -/
def empty_document : Document :=
  { _id := none, album := "", song := "", artist := "", datetime := [],
    channels := [], play_count := 0, artwork := [] }

/-- The `doc_updates` dict built in `__transform`: every key of the merged
document except `_id`, `album`, `song`, `artist` and `artwork` — with the
fixed schema these are exactly `datetime`, `channels` and `play_count`. -/
structure DocUpdates where
  datetime : List Timestamp
  channels : List ChannelData
  play_count : Nat
deriving DecidableEq

/-- `transform_helper(extraction_data, existing_transformed_data)`:
build a fresh document from the snapshot, or merge the snapshot into a
deep copy of the existing document.  Identity fields are recomputed
unconditionally; `start` is appended to `datetime` unless it is a member
of the reversed list (`not in ...[::-1]`); the channel triple is
appended unless already present; `play_count` is incremented;
`artwork` is rebuilt from the non-encrypted IMAGE entries. -/
def transform_helper (extraction_data : SiriusCurrentlyPlaying)
    (existing_transformed_data : Option Document) : Document :=
  let base :=
    match existing_transformed_data with
    | some d => d
    | none => empty_document
  let new_datetime := extraction_data.start
  let datetime1 :=
    if new_datetime ∈ base.datetime.reverse then base.datetime
    else base.datetime ++ [new_datetime]
  let channel_data : ChannelData :=
    { id := extraction_data.channel_id,
      number := extraction_data.channel_number,
      name := extraction_data.channel_name }
  let channels1 :=
    if channel_data ∈ base.channels then base.channels
    else base.channels ++ [channel_data]
  let image_list :=
    (extraction_data.creativeArts.filter
      (fun a => a.type == "IMAGE" && a.encrypted == false)).map
      (fun a => ArtworkImage.mk a.size a.url)
  { _id := base._id,
    album := extraction_data.album_name,
    song := extraction_data.song_name,
    artist := extraction_data.artist_name,
    datetime := datetime1,
    channels := channels1,
    play_count := base.play_count + 1,
    artwork := image_list }

/-- The `last_played_start` property: the last `datetime` entry of the
cached pointer, or `None` when no pointer is cached.  (On a pointer with
an empty `datetime` list the Python raises `IndexError`; that case is
mapped to `none` here and proved unreachable for merged documents.) -/
def last_played_start (lastPlayed : Option Document) : Timestamp :=
  match lastPlayed with
  | some d =>
      match d.datetime.getLast? with
      | some t => t
      | none => none
  | none => none

/-- The `strength 2, locale en` collation used by `get_existing` and the
`update_one` in `__load`, modelled as case-insensitive equality
(characterwise case folding). -/
def name_matches (stored query : String) : Bool :=
  stored.data.map Char.toLower == query.data.map Char.toLower

/-- `get_existing`: with a database, the first document of the channel
collection matching `(artist.name, song.name)` under the collation
(`find(...)[0]`, `IndexError` giving `None`); without a database, `None`. -/
def get_existing (database : Bool) (history : List Document)
    (artist_name song_name : String) : Option Document :=
  if database then
    history.find? (fun d =>
      name_matches d.artist artist_name && name_matches d.song song_name)
  else none

/-- The per-channel mutable state of one `ETL` instance: the in-memory
last-played cache, the channel's history collection and the shared
`last_played` pointer collection (keyed by channel id). -/
structure ETLState where
  lastPlayed : Option Document
  history : List Document
  lastPlayedColl : List (String × Document)
deriving DecidableEq

/-- `__transform`: if `last_played_start` differs from the snapshot's
`start`, merge against the matched existing document (returning the new
document plus the filtered `doc_updates` dict) or build a fresh document
(returning it with no updates); otherwise return `(None, None)`. -/
def transform (database : Bool) (st : ETLState)
    (currently_playing : SiriusCurrentlyPlaying) :
    Option Document × Option DocUpdates :=
  if last_played_start st.lastPlayed ≠ currently_playing.start then
    match get_existing database st.history currently_playing.artist_name
        currently_playing.song_name with
    | some existing_doc =>
        let new_doc := transform_helper currently_playing (some existing_doc)
        let doc_updates : DocUpdates :=
          { datetime := new_doc.datetime,
            channels := new_doc.channels,
            play_count := new_doc.play_count }
        (some new_doc, some doc_updates)
    | none =>
        (some (transform_helper currently_playing none), none)
  else
    (none, none)

/-- `update_one({'$set': doc_updates})` applied to one stored document:
exactly the three non-identity keys are overwritten. -/
def apply_doc_updates (stored : Document) (doc_updates : DocUpdates) :
    Document :=
  { stored with
    datetime := doc_updates.datetime,
    channels := doc_updates.channels,
    play_count := doc_updates.play_count }

/-- `update_one` on the history collection: apply the `$set` to the first
document matching the `(artist.name, song.name)` filter under the
collation. -/
def update_first (history : List Document) (artist_name song_name : String)
    (doc_updates : DocUpdates) : List Document :=
  match history with
  | [] => []
  | d :: rest =>
      if name_matches d.artist artist_name && name_matches d.song song_name then
        apply_doc_updates d doc_updates :: rest
      else
        d :: update_first rest artist_name song_name doc_updates

/-- `replace_one(filter, doc, upsert=True)` on the pointer collection:
replace the entry keyed by `key` wholesale, inserting it if absent. -/
def replace_one_upsert (coll : List (String × Document)) (key : String)
    (doc : Document) : List (String × Document) :=
  match coll with
  | [] => [(key, doc)]
  | (k, d) :: rest =>
      if k == key then (key, doc) :: rest
      else (k, d) :: replace_one_upsert rest key doc

/-- `find_one({'_id': key})` on the pointer collection. -/
def find_one (coll : List (String × Document)) (key : String) :
    Option Document :=
  match coll with
  | [] => none
  | (k, d) :: rest => if k == key then some d else find_one rest key

/-- `__load(new_doc, doc_updates)`: always cache `new_doc` as the last
played document first; then, when persisting, update or insert into the
history collection, set `new_doc['_id']` to the channel id (the cache
aliases the mutated object) and upsert it into the pointer collection.
A failing store call aborts the remaining statements. -/
def load (database database_write hist_write_ok pointer_write_ok : Bool)
    (channel artist_name song_name : String) (st : ETLState)
    (new_doc : Document) (doc_updates : Option DocUpdates) : ETLState :=
  let st1 := { st with lastPlayed := some new_doc }
  if database && database_write then
    if hist_write_ok then
      let st2 :=
        match doc_updates with
        | some du =>
            { st1 with
              history := update_first st1.history artist_name song_name du }
        | none => { st1 with history := st1.history ++ [new_doc] }
      let new_doc2 := { new_doc with _id := some channel }
      let st3 := { st2 with lastPlayed := some new_doc2 }
      if pointer_write_ok then
        { st3 with
          lastPlayedColl := replace_one_upsert st3.lastPlayedColl channel new_doc2 }
      else st3
    else st1
  else st1

/-- `extract_transform_load`: the per-cycle driver.  A failed extraction
(snapshot status false) only logs an error (second component `true`) and
leaves the state untouched; otherwise transform and, when a new document
was produced, load it. -/
def extract_transform_load
    (database database_write hist_write_ok pointer_write_ok : Bool)
    (channel : String) (st : ETLState)
    (currently_playing : SiriusCurrentlyPlaying) : ETLState × Bool :=
  if currently_playing.status then
    match transform database st currently_playing with
    | (some new_doc, doc_updates) =>
        (load database database_write hist_write_ok pointer_write_ok channel
          currently_playing.artist_name currently_playing.song_name st new_doc
          doc_updates, false)
    | (none, _) => (st, false)
  else
    (st, true)

/-- Projection of a document onto everything except its `_id`, used to
state that the cache always reflects the merged document even though the
`_id` of the cached object is overwritten on the persisting path. -/
def doc_content (d : Document) :
    String × String × String × List Timestamp × List ChannelData × Nat ×
      List ArtworkImage :=
  (d.album, d.song, d.artist, d.datetime, d.channels, d.play_count, d.artwork)

/-! ### Concrete sample inputs used by witnesses and counterexamples -/

/-- A concrete successful snapshot: artist "A", song "X", start `t1`,
channel 5. -/
def sample_playing : SiriusCurrentlyPlaying :=
  { status := true, album_name := "Al", song_name := "X", artist_name := "A",
    start := some "t1", channel_id := "5", channel_number := "5",
    channel_name := "Ch5", creativeArts := [] }

/-- The same snapshot with an absent start timestamp. -/
def sample_playing_nostart : SiriusCurrentlyPlaying :=
  { sample_playing with start := none }

/-- A concrete existing history document for (A, X) with
`datetime = [t1, t2]` and `play_count = 5`. -/
def sample_doc : Document :=
  { _id := some "oid1", album := "Al", song := "X", artist := "A",
    datetime := [some "t1", some "t2"],
    channels := [{ id := "5", number := "5", name := "Ch5" }],
    play_count := 5, artwork := [] }

/-- The result of merging `sample_playing` into `sample_doc`. -/
def sample_merged : Document := { sample_doc with play_count := 6 }

/-- The `doc_updates` produced alongside `sample_merged`. -/
def sample_updates : DocUpdates :=
  { datetime := [some "t1", some "t2"],
    channels := [{ id := "5", number := "5", name := "Ch5" }],
    play_count := 6 }

/-- Channel state whose cached pointer is `sample_doc` (last start `t2`)
and whose history collection holds `sample_doc`. -/
def sample_state : ETLState :=
  { lastPlayed := some sample_doc, history := [sample_doc],
    lastPlayedColl := [] }

/-- Channel state with no cached pointer and an empty store. -/
def empty_state : ETLState :=
  { lastPlayed := none, history := [], lastPlayedColl := [] }

/-! ### Claim theorems -/

/-- Claim C1, counterexample: the datetime de-duplication is not
tail-only.  `sample_doc.datetime = [t1, t2]` has tail `t2`; the snapshot
start `t1` equals the earlier, non-adjacent element and differs from the
tail, yet the merge does not append it: `datetime` is unchanged and does
not grow, refuting "a timestamp equal to some earlier, non-adjacent
element is appended and does grow datetime". -/
theorem datetime_tail_only_dedup_cex :
    sample_playing.start = some "t1" ∧
    sample_doc.datetime = [some "t1", some "t2"] ∧
    sample_doc.datetime.getLast? = some (some "t2") ∧
    sample_playing.start ≠ some "t2" ∧
    (transform_helper sample_playing (some sample_doc)).datetime =
      [some "t1", some "t2"] ∧
    ¬ (transform_helper sample_playing (some sample_doc)).datetime.length =
        sample_doc.datetime.length + 1 := by
  decide

/-- Claim C1, amended: the datetime de-duplication is global, not
tail-only — for every merge, the snapshot's start is appended exactly
when it does not already occur anywhere in `datetime` (membership in the
reversed list equals membership in the list), so a repeat after an
intervening different timestamp is also suppressed. -/
theorem datetime_dedup_global (cs : SiriusCurrentlyPlaying)
    (existing : Option Document) :
    (transform_helper cs existing).datetime =
      if cs.start ∈ (existing.getD empty_document).datetime then
        (existing.getD empty_document).datetime
      else (existing.getD empty_document).datetime ++ [cs.start] := by
  cases existing <;> simp [transform_helper, List.mem_reverse]

/-- Claim C2, counterexample: with no cached pointer and a snapshot
whose `start` is absent (`None`), `__transform` skips (`(None, None)`)
and the cycle leaves the state untouched, refuting "when the pointer is
absent the cycle is always processed (whatever its start value,
including an absent/None start)": `last_played_start` is `None` for an
absent pointer and compares equal to the `None` start. -/
theorem absent_pointer_skip_cex :
    empty_state.lastPlayed = none ∧
    sample_playing_nostart.start = none ∧
    transform true empty_state sample_playing_nostart = (none, none) ∧
    extract_transform_load true true true true "5" empty_state
      sample_playing_nostart = (empty_state, false) := by
  decide

/-- Claim C2, amended: the change detector skips exactly when
`last_played_start` (the pointer's last datetime entry when a pointer
exists, `None` otherwise) equals the snapshot's start; in particular,
when the pointer is absent the cycle is processed iff the snapshot's
start is not `None` (an absent start compares equal to the absent
pointer's `None` and is skipped). -/
theorem skip_iff_last_played_start_eq (database : Bool) (st : ETLState)
    (cs : SiriusCurrentlyPlaying) :
    ((transform database st cs).1 = none ↔
      last_played_start st.lastPlayed = cs.start) ∧
    ∀ history lastPlayedColl,
      ((transform database
          { lastPlayed := none, history := history,
            lastPlayedColl := lastPlayedColl } cs).1 = none ↔
        cs.start = none) := by
  constructor
  · by_cases h : last_played_start st.lastPlayed = cs.start
    · simp [transform, h]
    · cases hge : get_existing database st.history cs.artist_name
          cs.song_name <;> simp [transform, h, hge]
  · intro history lastPlayedColl
    by_cases hs : cs.start = none
    · simp [transform, last_played_start, hs]
    · cases hge : get_existing database history cs.artist_name
          cs.song_name <;>
        simp [transform, last_played_start, hs, hge, Ne, eq_comm]

/-- Claim C3: identity fields are write-once on the persisted record —
whenever `__transform` produces an update (`doc_updates`), applying that
`$set` to any stored document changes only `datetime`, `channels` and
`play_count` (set to the merged document's values) and leaves `_id`,
`album`, `song`, `artist` and `artwork` exactly as they were at
creation. -/
theorem identity_fields_write_once (database : Bool) (st : ETLState)
    (cs : SiriusCurrentlyPlaying) (stored new_doc : Document)
    (du : DocUpdates)
    (h : transform database st cs = (some new_doc, some du)) :
    (apply_doc_updates stored du)._id = stored._id ∧
    (apply_doc_updates stored du).album = stored.album ∧
    (apply_doc_updates stored du).song = stored.song ∧
    (apply_doc_updates stored du).artist = stored.artist ∧
    (apply_doc_updates stored du).artwork = stored.artwork ∧
    (apply_doc_updates stored du).datetime = new_doc.datetime ∧
    (apply_doc_updates stored du).channels = new_doc.channels ∧
    (apply_doc_updates stored du).play_count = new_doc.play_count := by
  simp only [transform] at h
  split at h
  · split at h
    · simp only [Prod.mk.injEq, Option.some.injEq] at h
      obtain ⟨h1, h2⟩ := h
      subst h1
      subst h2
      simp [apply_doc_updates]
    · simp at h
  · simp at h

/-- Claim C3 witness: a concrete update cycle (pointer `sample_doc`,
matched existing `sample_doc`, snapshot `sample_playing`) whose
`doc_updates`, applied to the stored document, preserve all identity
fields. -/
theorem identity_fields_write_once_witness :
    transform true sample_state sample_playing =
      (some sample_merged, some sample_updates) ∧
    ((apply_doc_updates sample_doc sample_updates)._id = sample_doc._id ∧
     (apply_doc_updates sample_doc sample_updates).album = sample_doc.album ∧
     (apply_doc_updates sample_doc sample_updates).song = sample_doc.song ∧
     (apply_doc_updates sample_doc sample_updates).artist =
       sample_doc.artist ∧
     (apply_doc_updates sample_doc sample_updates).artwork =
       sample_doc.artwork ∧
     (apply_doc_updates sample_doc sample_updates).datetime =
       sample_merged.datetime ∧
     (apply_doc_updates sample_doc sample_updates).channels =
       sample_merged.channels ∧
     (apply_doc_updates sample_doc sample_updates).play_count =
       sample_merged.play_count) :=
  ⟨by decide,
   identity_fields_write_once true sample_state sample_playing sample_doc
     sample_merged sample_updates (by decide)⟩

/-- Claim C4, counterexample: an existing record with `play_count = 5`
and `datetime = [t1, t2]` merged with a snapshot whose start `t1`
differs from the record's last entry `t2`: `play_count` becomes 6 but
`datetime` is NOT extended (length stays 2), refuting "datetime extended
by the new timestamp (unless it duplicates the tail)" — `t1` does not
duplicate the tail, yet it is suppressed because it occurs earlier in
the list. -/
theorem repeat_update_nonadjacent_cex :
    sample_doc.play_count = 5 ∧
    sample_doc.datetime.getLast? = some (some "t2") ∧
    sample_playing.start = some "t1" ∧
    sample_playing.start ≠ some "t2" ∧
    transform true sample_state sample_playing =
      (some sample_merged, some sample_updates) ∧
    sample_merged.play_count = 6 ∧
    sample_merged.datetime = sample_doc.datetime ∧
    sample_merged.datetime.length ≠ sample_doc.datetime.length + 1 := by
  decide

/-- Claim C4, amended: merging a snapshot into a matched existing record
(under the processing condition that the pointer's last start differs
from the snapshot's start) yields `play_count` incremented by one,
`datetime` extended by the new timestamp unless it already appears
anywhere in `datetime`, and an update delta that carries exactly the
merged record's `datetime`, `channels` and `play_count` — every field of
the merged record except `_id`, `album`, `song`, `artist` and
`artwork`. -/
theorem repeat_song_update (database : Bool) (st : ETLState)
    (cs : SiriusCurrentlyPlaying) (existing : Document)
    (hproc : last_played_start st.lastPlayed ≠ cs.start)
    (hex : get_existing database st.history cs.artist_name cs.song_name =
      some existing) :
    transform database st cs =
      (some (transform_helper cs (some existing)),
       some { datetime := (transform_helper cs (some existing)).datetime,
              channels := (transform_helper cs (some existing)).channels,
              play_count :=
                (transform_helper cs (some existing)).play_count }) ∧
    (transform_helper cs (some existing)).play_count =
      existing.play_count + 1 ∧
    (transform_helper cs (some existing)).datetime =
      (if cs.start ∈ existing.datetime then existing.datetime
       else existing.datetime ++ [cs.start]) := by
  refine ⟨?_, ?_, ?_⟩
  · simp [transform, hproc, hex]
  · simp [transform_helper]
  · simp [transform_helper, List.mem_reverse]

/-- Claim C4 witness: the concrete update cycle on `sample_state` with
snapshot `sample_playing`, whose hypotheses (pointer last `t2` differs
from start `t1`; existing match `sample_doc`) hold by computation. -/
theorem repeat_song_update_witness :
    (last_played_start sample_state.lastPlayed ≠ sample_playing.start ∧
     get_existing true sample_state.history sample_playing.artist_name
       sample_playing.song_name = some sample_doc) ∧
    (transform true sample_state sample_playing =
      (some (transform_helper sample_playing (some sample_doc)),
       some { datetime :=
                (transform_helper sample_playing (some sample_doc)).datetime,
              channels :=
                (transform_helper sample_playing (some sample_doc)).channels,
              play_count :=
                (transform_helper sample_playing
                  (some sample_doc)).play_count }) ∧
     (transform_helper sample_playing (some sample_doc)).play_count =
       sample_doc.play_count + 1 ∧
     (transform_helper sample_playing (some sample_doc)).datetime =
       (if sample_playing.start ∈ sample_doc.datetime then
          sample_doc.datetime
        else sample_doc.datetime ++ [sample_playing.start])) :=
  ⟨⟨by decide, by decide⟩,
   repeat_song_update true sample_state sample_playing sample_doc
     (by decide) (by decide)⟩

/-- Claim C5: with no existing record for the snapshot's (artist, song)
pair (and the processing condition holding), `__transform` takes the
insert path — no update delta — and the fresh document has
`play_count = 1`, `datetime = [start]` and `channels` equal to the
one-element list holding the snapshot's `{id, number, name}` triple. -/
theorem new_song_insert (database : Bool) (st : ETLState)
    (cs : SiriusCurrentlyPlaying)
    (hproc : last_played_start st.lastPlayed ≠ cs.start)
    (hex : get_existing database st.history cs.artist_name cs.song_name =
      none) :
    transform database st cs = (some (transform_helper cs none), none) ∧
    (transform_helper cs none).play_count = 1 ∧
    (transform_helper cs none).datetime = [cs.start] ∧
    (transform_helper cs none).channels =
      [{ id := cs.channel_id, number := cs.channel_number,
         name := cs.channel_name }] := by
  refine ⟨?_, ?_, ?_, ?_⟩
  · simp [transform, hproc, hex]
  · simp [transform_helper, empty_document]
  · simp [transform_helper, empty_document]
  · simp [transform_helper, empty_document]

/-- Claim C5 witness: a first sighting on an empty store (no pointer, no
history) with snapshot `sample_playing`. -/
theorem new_song_insert_witness :
    (last_played_start empty_state.lastPlayed ≠ sample_playing.start ∧
     get_existing true empty_state.history sample_playing.artist_name
       sample_playing.song_name = none) ∧
    (transform true empty_state sample_playing =
      (some (transform_helper sample_playing none), none) ∧
     (transform_helper sample_playing none).play_count = 1 ∧
     (transform_helper sample_playing none).datetime =
       [sample_playing.start] ∧
     (transform_helper sample_playing none).channels =
       [{ id := sample_playing.channel_id,
          number := sample_playing.channel_number,
          name := sample_playing.channel_name }]) :=
  ⟨⟨by decide, by decide⟩,
   new_song_insert true empty_state sample_playing (by decide) (by decide)⟩

/-- Helper for C6: `replace_one(..., upsert=True)` really leaves the
given document as the entry found under the given key. -/
theorem find_one_replace_one_upsert (coll : List (String × Document))
    (key : String) (doc : Document) :
    find_one (replace_one_upsert coll key doc) key = some doc := by
  induction coll with
  | nil => simp [replace_one_upsert, find_one]
  | cons p rest ih =>
      obtain ⟨k, d⟩ := p
      by_cases h : k == key
      · simp [replace_one_upsert, find_one, h]
      · simp [replace_one_upsert, find_one, h, ih]

/-- Claim C6: after every successful load (update and insert path
alike — both shapes of `doc_updates`), the pointer collection's entry
for channel id C is exactly the just-merged document with its `_id`
replaced by C, whatever pointer was there before. -/
theorem pointer_always_replaced (channel artist_name song_name : String)
    (st : ETLState) (new_doc : Document)
    (doc_updates : Option DocUpdates) :
    find_one ((load true true true true channel artist_name song_name st
        new_doc doc_updates).lastPlayedColl) channel =
      some { new_doc with _id := some channel } := by
  cases doc_updates <;> simp [load, find_one_replace_one_upsert]

/-- Claim C7: for every load — persistence enabled or disabled, history
write succeeding or failing, pointer write succeeding or failing — the
in-memory pointer cache afterwards holds the merged document (up to the
`_id` overwritten on the persisting path, i.e. equal on every content
field), so downstream change detection always reflects what was
decided. -/
theorem pointer_cache_always_set
    (database database_write hist_write_ok pointer_write_ok : Bool)
    (channel artist_name song_name : String) (st : ETLState)
    (new_doc : Document) (doc_updates : Option DocUpdates) :
    ((load database database_write hist_write_ok pointer_write_ok channel
        artist_name song_name st new_doc doc_updates).lastPlayed).map
        doc_content =
      some (doc_content new_doc) := by
  cases database <;> cases database_write <;> cases hist_write_ok <;>
    cases pointer_write_ok <;> cases doc_updates <;>
      simp [load, doc_content]

/-- Claim C8: appending channel triples is idempotent — if the
snapshot's `{id, number, name}` triple already occurs anywhere in the
record's `channels`, the merge leaves `channels` unchanged; and a second
merge of the same snapshot never grows `channels` past the first merge's
result, so repeated merges never exceed the de-duplicated set size. -/
theorem channels_dedup_idempotent (cs : SiriusCurrentlyPlaying)
    (d : Document) :
    (({ id := cs.channel_id, number := cs.channel_number,
        name := cs.channel_name } : ChannelData) ∈ d.channels →
      (transform_helper cs (some d)).channels = d.channels) ∧
    (transform_helper cs (some (transform_helper cs (some d)))).channels =
      (transform_helper cs (some d)).channels := by
  constructor
  · intro h
    simp [transform_helper, h]
  · by_cases h : ChannelData.mk cs.channel_id cs.channel_number
        cs.channel_name ∈ d.channels
    · simp [transform_helper, h]
    · simp [transform_helper, h]

/-- Claim C8 witness: `sample_playing`'s channel triple is already in
`sample_doc.channels`; merging leaves `channels` unchanged and a second
merge is a no-op on `channels`. -/
theorem channels_dedup_idempotent_witness :
    ({ id := sample_playing.channel_id,
       number := sample_playing.channel_number,
       name := sample_playing.channel_name } : ChannelData) ∈
      sample_doc.channels ∧
    (transform_helper sample_playing (some sample_doc)).channels =
      sample_doc.channels ∧
    (transform_helper sample_playing
        (some (transform_helper sample_playing (some sample_doc)))).channels =
      (transform_helper sample_playing (some sample_doc)).channels :=
  ⟨by decide,
   (channels_dedup_idempotent sample_playing sample_doc).1 (by decide),
   (channels_dedup_idempotent sample_playing sample_doc).2⟩

/-- Claim C9: a cycle whose fetched snapshot has status false terminates
after reporting the error (second component `true`) with no store
writes: the whole channel state — pointer cache, history collection and
pointer collection — is returned unchanged and no transform runs. -/
theorem fetch_failure_no_writes
    (database database_write hist_write_ok pointer_write_ok : Bool)
    (channel : String) (st : ETLState) (cs : SiriusCurrentlyPlaying) :
    extract_transform_load database database_write hist_write_ok
      pointer_write_ok channel st { cs with status := false } =
      (st, true) := by
  simp [extract_transform_load]

/-- Claim C10: every document produced by the merge has a non-empty
`datetime` (when the list would otherwise be empty the snapshot's start
is appended), so its last element exists and reading the last-played
start off a cached merged document can never hit the empty-list
(`IndexError`) case of `last_played_start`. -/
theorem merged_datetime_nonempty (cs : SiriusCurrentlyPlaying)
    (existing : Option Document) :
    (transform_helper cs existing).datetime ≠ [] ∧
    ((transform_helper cs existing).datetime.getLast?).isSome = true := by
  have h1 : (transform_helper cs existing).datetime ≠ [] := by
    cases existing with
    | none => simp [transform_helper, empty_document]
    | some d =>
        by_cases h : cs.start ∈ d.datetime.reverse
        · simpa [transform_helper, h] using
            List.ne_nil_of_mem (List.mem_reverse.mp h)
        · simp [transform_helper, h]
  exact ⟨h1, by simpa using List.getLast?_isSome.mpr h1⟩
